import Mathlib

/-!
Verification development for the campaign scheduling component of the ads
dashboard (src/app.py): the schedule validator, the batch schedule path of
campaign creation, the schedule query filter, and schedule serialization.

Python values are embedded shallowly: wall-clock times as pairs of naturals,
JSON scalars as an inductive type, exceptions as Option/Except, the database
as explicit lists threaded through the handlers.
-/

/-- Wall-clock time of day, the result of `datetime.strptime(s, '%H:%M').time()`. -/
structure PyTime where
  hour : Nat
  minute : Nat
deriving DecidableEq, Repr

/-- Minutes since midnight, for comparing two times of day. -/
def PyTime.toMinutes (t : PyTime) : Nat :=
  60 * t.hour + t.minute

/-- `t ≤ u` as times of day. -/
def timeLE (t u : PyTime) : Bool :=
  t.toMinutes ≤ u.toMinutes

/-- Zero-pad a (two-digit-or-less) number to width 2, as `%H` / `%M` of `strftime`. -/
def pad2 (n : Nat) : String :=
  if n < 10 then "0" ++ toString n else toString n

/-- `time.strftime('%H:%M')`. -/
def strftimeHM (t : PyTime) : String :=
  pad2 t.hour ++ ":" ++ pad2 t.minute

/-- Numeric value of a digit character. -/
def digitVal (c : Char) : Nat :=
  c.toNat - 48

/-- Split a character list at every occurrence of `sep`, keeping empty pieces,
as Python `str.split(sep)` does. -/
def splitOnChar (sep : Char) : List Char → List (List Char)
  | [] => [[]]
  | c :: rest =>
    if c = sep then
      [] :: splitOnChar sep rest
    else
      match splitOnChar sep rest with
      | [] => [[c]]
      | r :: rs => (c :: r) :: rs

/-- The `%H` pattern of `_strptime` (`2[0-3]|[0-1]\d|\d`), required to consume the
whole token: one digit, or two digits whose value is at most 23. -/
def parseHourTok : List Char → Option Nat
  | [c] => if c.isDigit then some (digitVal c) else none
  | [c1, c2] =>
    if c1.isDigit && c2.isDigit && 10 * digitVal c1 + digitVal c2 ≤ 23 then
      some (10 * digitVal c1 + digitVal c2)
    else none
  | _ => none

/-- The `%M` pattern of `_strptime` (`[0-5]\d|\d`), required to consume the whole
token: one digit, or two digits whose value is at most 59. -/
def parseMinuteTok : List Char → Option Nat
  | [c] => if c.isDigit then some (digitVal c) else none
  | [c1, c2] =>
    if c1.isDigit && c2.isDigit && 10 * digitVal c1 + digitVal c2 ≤ 59 then
      some (10 * digitVal c1 + digitVal c2)
    else none
  | _ => none

/-- `datetime.strptime(s, '%H:%M')`: the hour pattern, a literal colon, the minute
pattern, and nothing left over (`unconverted data remains` otherwise). Returns
`none` where Python raises `ValueError`. -/
def parseTimeHM (s : String) : Option PyTime :=
  match splitOnChar ':' s.toList with
  | [h, m] =>
    match parseHourTok h, parseMinuteTok m with
    | some hh, some mm => some ⟨hh, mm⟩
    | _, _ => none
  | _ => none

/-- A calendar date as parsed by `datetime.strptime(s, '%Y-%m-%d')`. -/
structure Date where
  year : Nat
  month : Nat
  day : Nat
deriving DecidableEq, Repr

/-- Gregorian leap-year test, as `calendar.isleap` / `datetime`. -/
def isLeap (y : Nat) : Bool :=
  (y % 4 == 0 && y % 100 != 0) || y % 400 == 0

/-- Length of month `m` (1-12) of year `y`; 0 for out-of-range months. -/
def daysInMonth (y m : Nat) : Nat :=
  if m = 2 then (if isLeap y then 29 else 28)
  else if m = 1 ∨ m = 3 ∨ m = 5 ∨ m = 7 ∨ m = 8 ∨ m = 10 ∨ m = 12 then 31
  else if m = 4 ∨ m = 6 ∨ m = 9 ∨ m = 11 then 30
  else 0

/-- Days in the months strictly before month `m` of year `y`. -/
def daysBeforeMonth (y m : Nat) : Nat :=
  [1, 2, 3, 4, 5, 6, 7, 8, 9, 10, 11].foldl
    (fun acc k => if k < m then acc + daysInMonth y k else acc) 0

/-- `date.toordinal()`: day number of the proleptic Gregorian calendar, with
0001-01-01 as day 1. -/
def toOrdinal (dt : Date) : Nat :=
  365 * (dt.year - 1) + (dt.year - 1) / 4 - (dt.year - 1) / 100 + (dt.year - 1) / 400
    + daysBeforeMonth dt.year dt.month + dt.day

/-- `date.weekday()`: Monday = 0 through Sunday = 6 (0001-01-01 was a Monday). -/
def pyWeekday (dt : Date) : Nat :=
  (toOrdinal dt + 6) % 7

/-- The `%Y` pattern of `_strptime`: exactly four digits. -/
def parseYearTok : List Char → Option Nat
  | [c1, c2, c3, c4] =>
    if c1.isDigit && c2.isDigit && c3.isDigit && c4.isDigit then
      some (1000 * digitVal c1 + 100 * digitVal c2 + 10 * digitVal c3 + digitVal c4)
    else none
  | _ => none

/-- The `%m` pattern of `_strptime` (`1[0-2]|0[1-9]|[1-9]`) consuming the whole
token: one digit 1-9, or two digits with value 1-12. -/
def parseMonthTok : List Char → Option Nat
  | [c] => if c.isDigit && 1 ≤ digitVal c then some (digitVal c) else none
  | [c1, c2] =>
    if c1.isDigit && c2.isDigit && 1 ≤ 10 * digitVal c1 + digitVal c2
        && 10 * digitVal c1 + digitVal c2 ≤ 12 then
      some (10 * digitVal c1 + digitVal c2)
    else none
  | _ => none

/-- The `%d` pattern of `_strptime` (`3[01]|[12]\d|0[1-9]|[1-9]`) consuming the
whole token: one digit 1-9, or two digits with value 1-31. -/
def parseDayTok : List Char → Option Nat
  | [c] => if c.isDigit && 1 ≤ digitVal c then some (digitVal c) else none
  | [c1, c2] =>
    if c1.isDigit && c2.isDigit && 1 ≤ 10 * digitVal c1 + digitVal c2
        && 10 * digitVal c1 + digitVal c2 ≤ 31 then
      some (10 * digitVal c1 + digitVal c2)
    else none
  | _ => none

/-- `datetime.strptime(s, '%Y-%m-%d')`: the three patterns joined by literal
dashes, nothing left over, then the `datetime` constructor's calendar check
(year at least 1, day within the month). `none` where Python raises `ValueError`. -/
def parseDateYMD (s : String) : Option Date :=
  match splitOnChar '-' s.toList with
  | [ys, ms, ds] =>
    match parseYearTok ys, parseMonthTok ms, parseDayTok ds with
    | some y, some m, some d =>
      if 1 ≤ y ∧ d ≤ daysInMonth y m then some ⟨y, m, d⟩ else none
    | _, _, _ => none
  | _ => none

/-- A JSON scalar as it arrives in a request body field. -/
inductive JVal where
  | jint : Int → JVal
  | jstr : String → JVal
  | jnull : JVal
deriving DecidableEq, Repr

/-- Python whitespace stripped by `int(str)`. -/
def isPySpace (c : Char) : Bool :=
  c == ' ' || c == '\t' || c == '\n' || c == '\r'

/-- Value of a nonempty all-digit character list. -/
def digitsVal : List Char → Option Nat
  | [] => none
  | cs =>
    if cs.all Char.isDigit then
      some (cs.foldl (fun acc c => 10 * acc + digitVal c) 0)
    else none

/-- Python `int(s)` on a string: optional surrounding whitespace, an optional
sign, then digits (the rarely-used underscore grouping is not modelled).
`none` where Python raises `ValueError`. -/
def parsePyIntStr (s : String) : Option Int :=
  match (((s.toList.dropWhile isPySpace).reverse.dropWhile isPySpace).reverse) with
  | '-' :: rest => (digitsVal rest).map (fun n => -(n : Int))
  | '+' :: rest => (digitsVal rest).map (fun n => (n : Int))
  | rest => (digitsVal rest).map (fun n => (n : Int))

/-- Python `int(v)` on a JSON scalar: an `int` passes through, a `str` is parsed,
`None` raises `TypeError`. `none` marks the raising cases. -/
def pyIntOf : JVal → Option Int
  | .jint n => some n
  | .jstr s => parsePyIntStr s
  | .jnull => none

/-- A row of the `campaigns` table (fields the scheduling component reads). -/
structure Campaign where
  id : Nat
  name : String
  description : Option String
  status : String
  createdBy : Nat
  clientId : Option Nat
  startDate : Option String
  endDate : Option String
deriving DecidableEq, Repr

/-- A row of the `campaign_schedules` table (`created_at` is not modelled: no
scheduling logic reads it). -/
structure Schedule where
  id : Nat
  campaignId : Nat
  dayOfWeek : Int
  startTime : PyTime
  endTime : PyTime
  isActive : Bool
deriving DecidableEq, Repr

/-- The requesting identity: `User.role` is one of admin, client, viewer. -/
structure User where
  id : Nat
  role : String
deriving DecidableEq, Repr

/-- `User.is_admin`. -/
def User.is_admin (u : User) : Bool :=
  u.role == "admin"

/-- The database state the scheduling endpoints touch, with the autoincrement
counters of the two tables. -/
structure AppState where
  campaigns : List Campaign
  schedules : List Schedule
  nextCampaignId : Nat
  nextScheduleId : Nat
deriving DecidableEq, Repr

/-- The day-name table of `CampaignSchedule.to_dict`. -/
def dayNames : List String :=
  ["Monday", "Tuesday", "Wednesday", "Thursday", "Friday", "Saturday", "Sunday"]

/-- Python list indexing `l[i]`, including negative indices; `none` where Python
raises `IndexError`. -/
def pyIndex (l : List String) (i : Int) : Option String :=
  if 0 ≤ i then l.get? i.toNat
  else if (-i).toNat ≤ l.length then l.get? (l.length - (-i).toNat)
  else none

/-- The `day_name` expression of `to_dict`,
`days[self.day_of_week] if 0 <= self.day_of_week <= 6 else 'Unknown'`,
with the Python indexing kept partial. -/
def dayNameExpr (d : Int) : Option String :=
  if 0 ≤ d ∧ d ≤ 6 then pyIndex dayNames d else some "Unknown"

/-- Total form of the `day_name` expression. -/
def dayName (d : Int) : String :=
  if 0 ≤ d ∧ d ≤ 6 then dayNames.getD d.toNat "" else "Unknown"

/-- The JSON dictionary built by `CampaignSchedule.to_dict` (`created_at`
omitted: no claim or scheduling logic reads it). -/
structure ScheduleDict where
  id : Nat
  campaign_id : Nat
  day_of_week : Int
  day_name : String
  start_time : String
  end_time : String
  is_active : Bool
deriving DecidableEq, Repr

/-- `CampaignSchedule.to_dict`. -/
def to_dict (s : Schedule) : ScheduleDict :=
  { id := s.id
    campaign_id := s.campaignId
    day_of_week := s.dayOfWeek
    day_name := dayName s.dayOfWeek
    start_time := strftimeHM s.startTime
    end_time := strftimeHM s.endTime
    is_active := s.isActive }

/-- `CampaignSchedule.to_dict` with the partiality of the Python list lookup
made explicit: `none` would be an `IndexError` escaping `to_dict`. -/
def to_dict_checked (s : Schedule) : Option ScheduleDict :=
  (dayNameExpr s.dayOfWeek).map (fun dn =>
    { id := s.id
      campaign_id := s.campaignId
      day_of_week := s.dayOfWeek
      day_name := dn
      start_time := strftimeHM s.startTime
      end_time := strftimeHM s.endTime
      is_active := s.isActive })

/-- The JSON body of `POST /api/schedule`; `none` marks an absent key. -/
structure ScheduleReq where
  campaign_id : Option Nat
  day_of_week : Option JVal
  start_time : Option String
  end_time : Option String
  is_active : Option Bool
deriving DecidableEq, Repr

/-- Outcome of `POST /api/schedule`: a JSON body with an HTTP status, either the
created schedule's dictionary or an error message. -/
inductive CreateResult where
  | ok : Nat → ScheduleDict → CreateResult
  | err : Nat → String → CreateResult
deriving DecidableEq, Repr

/-- The `create_schedule` handler (`POST /api/schedule`). Mirrors the source
order: missing-key check, campaign lookup, time parsing (guarded by a
`try/except ValueError`), then `int(data['day_of_week'])` — which is NOT inside
that guard, so a non-parsing value propagates to the outer handler and yields
the generic 500 — then the range check, then the insert. Returns the response
together with the resulting database state. -/
def create_schedule (st : AppState) (req : ScheduleReq) : CreateResult × AppState :=
  match req.campaign_id, req.day_of_week, req.start_time, req.end_time with
  | some cid, some dow, some sts, some ets =>
    match st.campaigns.find? (fun c => c.id == cid) with
    | none => (.err 404 "Campaign not found", st)
    | some _ =>
      match parseTimeHM sts, parseTimeHM ets with
      | some t1, some t2 =>
        match pyIntOf dow with
        | none => (.err 500 "Failed to create schedule", st)
        | some d =>
          if 0 ≤ d ∧ d ≤ 6 then
            let sched : Schedule :=
              ⟨st.nextScheduleId, cid, d, t1, t2, req.is_active.getD true⟩
            (.ok 201 (to_dict sched),
             { st with
                schedules := st.schedules ++ [sched]
                nextScheduleId := st.nextScheduleId + 1 })
          else
            (.err 400 "day_of_week must be an integer between 0 (Monday) and 6 (Sunday)", st)
      | _, _ => (.err 400 "Invalid time format. Use HH:MM.", st)
  | _, _, _, _ =>
    (.err 400 "Campaign ID, day of week, start time and end time are required", st)

/-- One element of the `schedules` list supplied with campaign creation;
`none` marks an absent key (a `KeyError` when read). -/
structure RawScheduleItem where
  start_time : Option String
  end_time : Option String
  day_of_week : Option JVal
  is_active : Option Bool
deriving DecidableEq, Repr

/-- Validation of one batch item, in source order: read and parse `start_time`,
read and parse `end_time`, read and convert `day_of_week`, range-check it.
`none` covers exactly the cases the loop's `except` clauses (or its explicit
`continue`) skip. -/
def validateItem (it : RawScheduleItem) : Option (PyTime × PyTime × Int × Bool) :=
  match it.start_time with
  | none => none
  | some sts =>
    match parseTimeHM sts with
    | none => none
    | some t1 =>
      match it.end_time with
      | none => none
      | some ets =>
        match parseTimeHM ets with
        | none => none
        | some t2 =>
          match it.day_of_week with
          | none => none
          | some j =>
            match pyIntOf j with
            | none => none
            | some d =>
              if 0 ≤ d ∧ d ≤ 6 then some (t1, t2, d, it.is_active.getD true)
              else none

/-- The schedule loop of `create_campaign`: each item is validated
independently; a malformed item is logged and skipped, a valid one becomes a
`CampaignSchedule` row of the new campaign, taking the next autoincrement id. -/
def processBatch (cid : Nat) (nextId : Nat) : List RawScheduleItem → List Schedule
  | [] => []
  | it :: rest =>
    match validateItem it with
    | some (t1, t2, d, act) => ⟨nextId, cid, d, t1, t2, act⟩ :: processBatch cid (nextId + 1) rest
    | none => processBatch cid nextId rest

/-- The JSON body of `POST /api/campaigns` (the date fields and file uploads
are outside the scheduling component and not modelled). -/
structure CampaignReq where
  name : Option String
  description : Option String
  status : Option String
  client_id : Option Nat
  schedules : Option (List RawScheduleItem)
deriving DecidableEq, Repr

/-- Outcome of `POST /api/campaigns`: the created campaign with its accepted
schedules, or an error body with an HTTP status. -/
inductive CampaignResult where
  | ok : Campaign → List Schedule → CampaignResult
  | err : Nat → String → CampaignResult
deriving DecidableEq, Repr

/-- The `create_campaign` handler (`POST /api/campaigns`), restricted to the
fields the scheduling claims exercise: name check, client-id defaulting for
client-role callers, flush assigning the campaign id, then the schedule batch
loop. -/
def create_campaign (st : AppState) (u : User) (req : CampaignReq) :
    CampaignResult × AppState :=
  match req.name with
  | none => (.err 400 "Campaign name is required", st)
  | some nm =>
    let clientId :=
      if u.role == "client" && req.client_id.getD 0 == 0 then some u.id
      else req.client_id
    let cid := st.nextCampaignId
    let camp : Campaign :=
      ⟨cid, nm, req.description, req.status.getD "draft", u.id, clientId, none, none⟩
    let scheds :=
      match req.schedules with
      | some items => processBatch cid st.nextScheduleId items
      | none => []
    (.ok camp scheds,
     { campaigns := st.campaigns ++ [camp]
       schedules := st.schedules ++ scheds
       nextCampaignId := cid + 1
       nextScheduleId := st.nextScheduleId + scheds.length })

/-- Parent-campaign fields denormalized into each entry of the schedule query
response. -/
structure CampaignInfo where
  campaign_name : String
  campaign_description : Option String
  campaign_status : String
  campaign_start_date : Option String
  campaign_end_date : Option String
deriving DecidableEq, Repr

/-- One element of the `GET /api/schedule` response array: `to_dict` output
plus, when the parent campaign row exists, its denormalized fields. -/
structure EnrichedEntry where
  base : ScheduleDict
  campaign : Option CampaignInfo
deriving DecidableEq, Repr

/-- Outcome of `GET /api/schedule`: the entry array with the caller's
`is_admin` flag (HTTP 200), or an error body with an HTTP status. -/
inductive GetResult where
  | ok : List EnrichedEntry → Bool → GetResult
  | err : Nat → String → GetResult
deriving DecidableEq, Repr

/-- Does the schedule's owning campaign row exist with `client_id` equal to the
caller's id?  The condition of the `join(Campaign).filter(Campaign.client_id
== user.id)` branch of `get_schedules`. -/
def clientOwns (st : AppState) (u : User) (s : Schedule) : Bool :=
  match st.campaigns.find? (fun c => c.id == s.campaignId) with
  | some c => c.clientId == some u.id
  | none => false

/-- The role branch of `get_schedules`: a client-role caller sees only
schedules of campaigns assigned to them; every other role leaves the query
unfiltered. -/
def roleFilter (st : AppState) (u : User) (q : List Schedule) : List Schedule :=
  if u.role == "client" then q.filter (clientOwns st u) else q

/-- The response-building loop of `get_schedules`: `to_dict` plus the campaign
fields when `schedule.campaign` resolves. -/
def enrich (st : AppState) (s : Schedule) : EnrichedEntry :=
  { base := to_dict s
    campaign :=
      (st.campaigns.find? (fun c => c.id == s.campaignId)).map (fun c =>
        ⟨c.name, c.description, c.status, c.startDate, c.endDate⟩) }

/-- The `get_schedules` handler (`GET /api/schedule`): the `if date_str:`
truthiness guard first — an absent or empty `date` parameter skips the date
filter entirely — then parsing (400 on failure), the
`day_of_week = date.weekday()` filter, the role filter, and enrichment of each
remaining schedule. -/
def get_schedules (st : AppState) (u : User) (dateStr : Option String) : GetResult :=
  match dateStr with
  | some ds =>
    if ds = "" then
      .ok ((roleFilter st u st.schedules).map (enrich st)) u.is_admin
    else
      match parseDateYMD ds with
      | none => .err 400 "Invalid date format. Use YYYY-MM-DD."
      | some dt =>
        let q := st.schedules.filter (fun s => s.dayOfWeek == (pyWeekday dt : Int))
        .ok ((roleFilter st u q).map (enrich st)) u.is_admin
  | none =>
    .ok ((roleFilter st u st.schedules).map (enrich st)) u.is_admin

/-- Replace every campaign's `start_date`/`end_date` by arbitrary values
(keyed by campaign id), leaving all other state alone; used to state that the
schedule query never consults the campaign date range. -/
def setCampaignDates (f : Nat → Option String × Option String) (st : AppState) : AppState :=
  { st with
      campaigns := st.campaigns.map (fun c =>
        { c with startDate := (f c.id).1, endDate := (f c.id).2 }) }

/-- Forget the denormalized campaign fields of a query response, keeping the
schedule dictionaries and the error cases. -/
def resultBases : GetResult → Except (Nat × String) (List ScheduleDict)
  | .ok es _ => .ok (es.map (fun e => e.base))
  | .err c m => .error (c, m)

/-- Modelled from the spec: a string in strict `HH:MM` form, two digits, a
colon, two digits, with `00 ≤ HH ≤ 23` and `00 ≤ MM ≤ 59`. Stated for
comparison with the looser `parseTimeHM` the source actually performs. -/
def specStrictHHMM (s : String) : Bool :=
  match s.toList with
  | [c1, c2, c, c3, c4] =>
    c == ':' && c1.isDigit && c2.isDigit && c3.isDigit && c4.isDigit
      && 10 * digitVal c1 + digitVal c2 ≤ 23
      && 10 * digitVal c3 + digitVal c4 ≤ 59
  | _ => false

/-- Modelled from the spec: a string in strict `YYYY-MM-DD` form — four
digits, dash, two digits, dash, two digits — denoting a real calendar date.
Stated for comparison with the looser `parseDateYMD` the source actually
performs. -/
def specStrictYMD (s : String) : Bool :=
  match s.toList with
  | [y1, y2, y3, y4, c, m1, m2, c', d1, d2] =>
    c == '-' && c' == '-'
      && y1.isDigit && y2.isDigit && y3.isDigit && y4.isDigit
      && m1.isDigit && m2.isDigit && d1.isDigit && d2.isDigit
      && 1 ≤ 1000 * digitVal y1 + 100 * digitVal y2 + 10 * digitVal y3 + digitVal y4
      && 1 ≤ 10 * digitVal m1 + digitVal m2 && 10 * digitVal m1 + digitVal m2 ≤ 12
      && 1 ≤ 10 * digitVal d1 + digitVal d2
      && 10 * digitVal d1 + digitVal d2
          ≤ daysInMonth
              (1000 * digitVal y1 + 100 * digitVal y2 + 10 * digitVal y3 + digitVal y4)
              (10 * digitVal m1 + digitVal m2)
  | _ => false

/-- A one-campaign database for concrete runs: campaign 1, no client
assignment, no schedules yet. -/
def demoState : AppState :=
  { campaigns := [⟨1, "Spring Launch", none, "draft", 1, none, none, none⟩]
    schedules := []
    nextCampaignId := 2
    nextScheduleId := 1 }

/-- An admin caller for concrete runs. -/
def demoAdmin : User := ⟨1, "admin"⟩

/-- A client-role caller for concrete runs. -/
def demoClient : User := ⟨5, "client"⟩

/-- A concrete valid `POST /api/schedule` body: campaign 1, Wednesday,
09:00-17:00. -/
def demoReq : ScheduleReq :=
  ⟨some 1, some (.jint 2), some "09:00", some "17:00", none⟩

/-- The dictionary `create_schedule demoState demoReq` answers with. -/
def demoDict : ScheduleDict :=
  to_dict ⟨1, 1, 2, ⟨9, 0⟩, ⟨17, 0⟩, true⟩

/-! ## Helper lemmas -/

/-- In range, the guarded Python lookup succeeds and agrees with the total form. -/
theorem dayNameExpr_eq_some (d : Int) : dayNameExpr d = some (dayName d) := by
  by_cases h : 0 ≤ d ∧ d ≤ 6
  · obtain ⟨h1, h2⟩ := h
    interval_cases d <;> rfl
  · simp [dayNameExpr, dayName, h]

/-- Accepted-batch length: accepted plus malformed equals the input count. -/
theorem processBatch_length (cid : Nat) (items : List RawScheduleItem) :
    ∀ nid, (processBatch cid nid items).length
      + (items.filter (fun it => (validateItem it).isNone)).length = items.length := by
  induction items with
  | nil => intro nid; rfl
  | cons it rest ih =>
    intro nid
    cases h : validateItem it with
    | none =>
      simp [processBatch, h, List.filter_cons]
      have := ih nid
      omega
    | some v =>
      obtain ⟨t1, t2, d, act⟩ := v
      simp [processBatch, h, List.filter_cons]
      have := ih (nid + 1)
      omega

/-- A digit character is not a colon. -/
theorem digit_ne_colon (c : Char) (h : c.isDigit = true) : c ≠ ':' := by
  intro he
  subst he
  exact absurd h (by decide)

/-- A digit character is not a dash. -/
theorem digit_ne_dash (c : Char) (h : c.isDigit = true) : c ≠ '-' := by
  intro he
  subst he
  exact absurd h (by decide)

/-- Changing campaign date ranges does not change which schedules a client
owns. -/
theorem clientOwns_setDates (f : Nat → Option String × Option String)
    (st : AppState) (u : User) (s : Schedule) :
    clientOwns (setCampaignDates f st) u s = clientOwns st u s := by
  unfold clientOwns setCampaignDates
  simp only
  rw [List.find?_map]
  have hp : ((fun c : Campaign => c.id == s.campaignId) ∘
        (fun c : Campaign => { c with startDate := (f c.id).1, endDate := (f c.id).2 }))
      = (fun c : Campaign => c.id == s.campaignId) := rfl
  rw [hp]
  cases st.campaigns.find? (fun c => c.id == s.campaignId) <;> rfl

/-- Splitting a five-character `hh:mm` shape at the colon. -/
theorem splitOnChar_hhmm (c1 c2 c3 c4 : Char)
    (n1 : c1 ≠ ':') (n2 : c2 ≠ ':') (n3 : c3 ≠ ':') (n4 : c4 ≠ ':') :
    splitOnChar ':' [c1, c2, ':', c3, c4] = [[c1, c2], [c3, c4]] := by
  simp [splitOnChar, n1, n2, n3, n4]

/-- Every strict `HH:MM` string is accepted by the source's time parsing. -/
theorem specStrictHHMM_parses (s : String) (h : specStrictHHMM s = true) :
    (parseTimeHM s).isSome = true := by
  unfold specStrictHHMM at h
  rcases hl : s.toList with _ | ⟨c1, _ | ⟨c2, _ | ⟨c, _ | ⟨c3, _ | ⟨c4, _ | ⟨c5, rest⟩⟩⟩⟩⟩⟩ <;>
    rw [hl] at h <;> simp only [Bool.and_eq_true, beq_iff_eq, decide_eq_true_eq] at h <;>
    try exact Bool.noConfusion h
  obtain ⟨⟨⟨⟨⟨⟨hc, h1⟩, h2⟩, h3⟩, h4⟩, hb1⟩, hb2⟩ := h
  subst hc
  unfold parseTimeHM
  rw [hl, splitOnChar_hhmm c1 c2 c3 c4 (digit_ne_colon c1 h1) (digit_ne_colon c2 h2)
    (digit_ne_colon c3 h3) (digit_ne_colon c4 h4)]
  simp [parseHourTok, parseMinuteTok, h1, h2, h3, h4, hb1, hb2]

/-- Every month has at most 31 days. -/
theorem daysInMonth_le (y m : Nat) : daysInMonth y m ≤ 31 := by
  unfold daysInMonth
  split_ifs <;> omega

/-- Splitting a ten-character `yyyy-mm-dd` shape at the dashes. -/
theorem splitOnChar_ymd (y1 y2 y3 y4 m1 m2 d1 d2 : Char)
    (n1 : y1 ≠ '-') (n2 : y2 ≠ '-') (n3 : y3 ≠ '-') (n4 : y4 ≠ '-')
    (n5 : m1 ≠ '-') (n6 : m2 ≠ '-') (n7 : d1 ≠ '-') (n8 : d2 ≠ '-') :
    splitOnChar '-' [y1, y2, y3, y4, '-', m1, m2, '-', d1, d2]
      = [[y1, y2, y3, y4], [m1, m2], [d1, d2]] := by
  simp [splitOnChar, n1, n2, n3, n4, n5, n6, n7, n8]

/-- Every strict, calendar-valid `YYYY-MM-DD` string is accepted by the
source's date parsing. -/
theorem specStrictYMD_parses (s : String) (h : specStrictYMD s = true) :
    (parseDateYMD s).isSome = true := by
  unfold specStrictYMD at h
  rcases hl : s.toList with _ | ⟨y1, _ | ⟨y2, _ | ⟨y3, _ | ⟨y4, _ | ⟨c, _ | ⟨m1, _ |
      ⟨m2, _ | ⟨c', _ | ⟨d1, _ | ⟨d2, _ | ⟨e, rest⟩⟩⟩⟩⟩⟩⟩⟩⟩⟩⟩ <;>
    rw [hl] at h <;> simp only [Bool.and_eq_true, beq_iff_eq, decide_eq_true_eq] at h <;>
    try exact Bool.noConfusion h
  obtain ⟨⟨⟨⟨⟨⟨⟨⟨⟨⟨⟨⟨⟨⟨hc, hc'⟩, h1⟩, h2⟩, h3⟩, h4⟩, h5⟩, h6⟩, h7⟩, h8⟩, hy⟩, hm1⟩, hm2⟩, hd1⟩, hd2⟩ := h
  subst hc
  subst hc'
  unfold parseDateYMD
  rw [hl, splitOnChar_ymd y1 y2 y3 y4 m1 m2 d1 d2 (digit_ne_dash y1 h1) (digit_ne_dash y2 h2)
    (digit_ne_dash y3 h3) (digit_ne_dash y4 h4) (digit_ne_dash m1 h5) (digit_ne_dash m2 h6)
    (digit_ne_dash d1 h7) (digit_ne_dash d2 h8)]
  have hle : 10 * digitVal d1 + digitVal d2 ≤ 31 :=
    le_trans hd2 (daysInMonth_le _ _)
  simp [parseYearTok, parseMonthTok, parseDayTok, h1, h2, h3, h4, h5, h6, h7, h8,
    hy, hm1, hm2, hd1, hd2, hle]

/-- A string the date parser accepts is nonempty, hence truthy under the
source's `if date_str:` guard. -/
theorem parseDateYMD_ne_empty (ds : String) (dt : Date)
    (h : parseDateYMD ds = some dt) : ds ≠ "" := by
  intro he
  rw [he] at h
  exact Option.noConfusion h

/-! ## Claim theorems -/

/-- C10: schedule serialization is total — for every stored schedule the JSON
dictionary is produced (the guarded Python list lookup cannot raise), with
`day_name` the table-derived name for `day_of_week` in `[0, 6]` and the string
`Unknown` for any out-of-range stored value. -/
theorem c10_to_dict_total (s : Schedule) :
    to_dict_checked s = some (to_dict s) ∧
    (to_dict s).day_name =
      (if 0 ≤ s.dayOfWeek ∧ s.dayOfWeek ≤ 6 then dayNames.getD s.dayOfWeek.toNat ""
       else "Unknown") := by
  constructor
  · simp [to_dict_checked, dayNameExpr_eq_some, to_dict]
  · rfl

/-- C2: for a campaign creation carrying a batch of N schedule items of which
M are malformed, processing accepts exactly N - M items, skips the M malformed
ones without raising past the batch boundary, and campaign creation itself
still succeeds. -/
theorem c2_batch_best_effort (st : AppState) (u : User) (req : CampaignReq)
    (nm : String) (items : List RawScheduleItem)
    (hn : req.name = some nm) (hs : req.schedules = some items) :
    ∃ camp scheds st', create_campaign st u req = (.ok camp scheds, st') ∧
      scheds.length + (items.filter (fun it => (validateItem it).isNone)).length
        = items.length ∧
      scheds.length
        = items.length - (items.filter (fun it => (validateItem it).isNone)).length := by
  have hlen := processBatch_length st.nextCampaignId items st.nextScheduleId
  refine ⟨⟨st.nextCampaignId, nm, req.description, req.status.getD "draft", u.id,
      if u.role == "client" && req.client_id.getD 0 == 0 then some u.id else req.client_id,
      none, none⟩,
    processBatch st.nextCampaignId st.nextScheduleId items,
    ⟨st.campaigns ++ [⟨st.nextCampaignId, nm, req.description, req.status.getD "draft", u.id,
        if u.role == "client" && req.client_id.getD 0 == 0 then some u.id else req.client_id,
        none, none⟩],
      st.schedules ++ processBatch st.nextCampaignId st.nextScheduleId items,
      st.nextCampaignId + 1,
      st.nextScheduleId + (processBatch st.nextCampaignId st.nextScheduleId items).length⟩,
    ?_, hlen, by omega⟩
  simp [create_campaign, hn, hs]

/-- Witness for C2: a two-item batch — one valid Wednesday window, one with
`day_of_week = 9` — yields one accepted schedule and one skip, and campaign
creation succeeds. -/
theorem c2_batch_best_effort_witness :
    ∃ camp scheds st',
      create_campaign demoState demoAdmin
          ⟨some "Summer", none, none, none,
            some [⟨some "09:00", some "17:00", some (.jint 2), none⟩,
                  ⟨some "09:00", some "17:00", some (.jint 9), none⟩]⟩
        = (.ok camp scheds, st') ∧
      scheds.length + (List.filter (fun it => (validateItem it).isNone)
          [⟨some "09:00", some "17:00", some (.jint 2), none⟩,
           ⟨some "09:00", some "17:00", some (.jint 9), none⟩]).length
        = ([⟨some "09:00", some "17:00", some (.jint 2), none⟩,
            (⟨some "09:00", some "17:00", some (.jint 9), none⟩ : RawScheduleItem)]).length ∧
      scheds.length
        = ([⟨some "09:00", some "17:00", some (.jint 2), none⟩,
            (⟨some "09:00", some "17:00", some (.jint 9), none⟩ : RawScheduleItem)]).length
          - (List.filter (fun it => (validateItem it).isNone)
              [⟨some "09:00", some "17:00", some (.jint 2), none⟩,
               ⟨some "09:00", some "17:00", some (.jint 9), none⟩]).length :=
  c2_batch_best_effort demoState demoAdmin _ "Summer" _ rfl rfl

/-- C1: with every other field valid and the campaign present, day_of_week
values 0-6 are accepted (HTTP 201 on the standalone path, item accepted on the
batch path) and every integer outside `[0, 6]` is rejected with the
`InvalidDayOfWeek` message on the standalone path and skipped on the batch
path. -/
theorem c1_day_of_week_validation (st : AppState) (cid : Nat) (d : Int)
    (s1 s2 : String) (t1 t2 : PyTime) (act : Option Bool) (c : Campaign)
    (hc : st.campaigns.find? (fun x => x.id == cid) = some c)
    (h1 : parseTimeHM s1 = some t1) (h2 : parseTimeHM s2 = some t2) :
    ((0 ≤ d ∧ d ≤ 6) →
      (∃ dict st', create_schedule st ⟨some cid, some (.jint d), some s1, some s2, act⟩
          = (.ok 201 dict, st'))
      ∧ (validateItem ⟨some s1, some s2, some (.jint d), act⟩).isSome = true)
    ∧ (¬(0 ≤ d ∧ d ≤ 6) →
      create_schedule st ⟨some cid, some (.jint d), some s1, some s2, act⟩
          = (.err 400 "day_of_week must be an integer between 0 (Monday) and 6 (Sunday)", st)
      ∧ validateItem ⟨some s1, some s2, some (.jint d), act⟩ = none) := by
  constructor
  · intro h
    constructor
    · refine ⟨to_dict ⟨st.nextScheduleId, cid, d, t1, t2, act.getD true⟩,
        { st with
            schedules := st.schedules ++ [⟨st.nextScheduleId, cid, d, t1, t2, act.getD true⟩],
            nextScheduleId := st.nextScheduleId + 1 }, ?_⟩
      simp [create_schedule, hc, h1, h2, pyIntOf, h]
    · simp [validateItem, h1, h2, pyIntOf, h]
  · intro h
    constructor
    · simp [create_schedule, hc, h1, h2, pyIntOf, h]
    · simp [validateItem, h1, h2, pyIntOf, h]

/-- Witness for C1: day 3 is accepted, day 7 is rejected and skipped. -/
theorem c1_day_of_week_validation_witness :
    ((∃ dict st', create_schedule demoState ⟨some 1, some (.jint 3), some "08:00", some "12:30", none⟩
        = (.ok 201 dict, st'))
      ∧ (validateItem ⟨some "08:00", some "12:30", some (.jint 3), none⟩).isSome = true)
    ∧ (create_schedule demoState ⟨some 1, some (.jint 7), some "08:00", some "12:30", none⟩
        = (.err 400 "day_of_week must be an integer between 0 (Monday) and 6 (Sunday)", demoState)
      ∧ validateItem ⟨some "08:00", some "12:30", some (.jint 7), none⟩ = none) :=
  ⟨(c1_day_of_week_validation demoState 1 3 "08:00" "12:30" ⟨8, 0⟩ ⟨12, 30⟩ none
      ⟨1, "Spring Launch", none, "draft", 1, none, none, none⟩ rfl rfl rfl).1 (by decide),
   (c1_day_of_week_validation demoState 1 7 "08:00" "12:30" ⟨8, 0⟩ ⟨12, 30⟩ none
      ⟨1, "Spring Launch", none, "draft", 1, none, none, none⟩ rfl rfl rfl).2 (by decide)⟩

/-- C3: the schedule query shows a client-role identity exactly the schedules
whose owning campaign is assigned to it, and shows admin or viewer identities
the full set, restricted only by the optional date filter. -/
theorem c3_role_visibility (st : AppState) (u : User) :
    (u.role = "client" →
      get_schedules st u none
          = .ok ((st.schedules.filter (clientOwns st u)).map (enrich st)) u.is_admin
      ∧ ∀ ds dt, parseDateYMD ds = some dt →
          get_schedules st u (some ds)
            = .ok (((st.schedules.filter (fun s => s.dayOfWeek == (pyWeekday dt : Int))).filter
                (clientOwns st u)).map (enrich st)) u.is_admin)
    ∧ ((u.role = "admin" ∨ u.role = "viewer") →
      get_schedules st u none = .ok (st.schedules.map (enrich st)) u.is_admin
      ∧ ∀ ds dt, parseDateYMD ds = some dt →
          get_schedules st u (some ds)
            = .ok ((st.schedules.filter (fun s => s.dayOfWeek == (pyWeekday dt : Int))).map
                (enrich st)) u.is_admin) := by
  constructor
  · intro h
    have hb : (u.role == "client") = true := by simp [h]
    refine ⟨by simp [get_schedules, roleFilter, hb], ?_⟩
    intro ds dt hdt
    have hne := parseDateYMD_ne_empty ds dt hdt
    simp [get_schedules, hdt, roleFilter, hb, hne]
  · intro h
    have hb : (u.role == "client") = false := by
      rcases h with h | h <;> simp [h]
    refine ⟨by simp [get_schedules, roleFilter, hb], ?_⟩
    intro ds dt hdt
    have hne := parseDateYMD_ne_empty ds dt hdt
    simp [get_schedules, hdt, roleFilter, hb, hne]

/-- Witness for C3: on a store with one client-owned and one unassigned
schedule, the client sees only its own, the admin sees both. -/
theorem c3_role_visibility_witness :
    (get_schedules
        ⟨[⟨1, "A", none, "draft", 1, some 5, none, none⟩,
          ⟨2, "B", none, "draft", 1, none, none, none⟩],
         [⟨1, 1, 2, ⟨9, 0⟩, ⟨17, 0⟩, true⟩, ⟨2, 2, 3, ⟨8, 0⟩, ⟨12, 0⟩, true⟩], 3, 3⟩
        demoClient none
      = .ok (([⟨1, 1, 2, ⟨9, 0⟩, ⟨17, 0⟩, true⟩,
               (⟨2, 2, 3, ⟨8, 0⟩, ⟨12, 0⟩, true⟩ : Schedule)].filter
          (clientOwns
            ⟨[⟨1, "A", none, "draft", 1, some 5, none, none⟩,
              ⟨2, "B", none, "draft", 1, none, none, none⟩],
             [⟨1, 1, 2, ⟨9, 0⟩, ⟨17, 0⟩, true⟩, ⟨2, 2, 3, ⟨8, 0⟩, ⟨12, 0⟩, true⟩], 3, 3⟩
            demoClient)).map
          (enrich
            ⟨[⟨1, "A", none, "draft", 1, some 5, none, none⟩,
              ⟨2, "B", none, "draft", 1, none, none, none⟩],
             [⟨1, 1, 2, ⟨9, 0⟩, ⟨17, 0⟩, true⟩, ⟨2, 2, 3, ⟨8, 0⟩, ⟨12, 0⟩, true⟩], 3, 3⟩))
          demoClient.is_admin)
    ∧ (get_schedules
        ⟨[⟨1, "A", none, "draft", 1, some 5, none, none⟩,
          ⟨2, "B", none, "draft", 1, none, none, none⟩],
         [⟨1, 1, 2, ⟨9, 0⟩, ⟨17, 0⟩, true⟩, ⟨2, 2, 3, ⟨8, 0⟩, ⟨12, 0⟩, true⟩], 3, 3⟩
        demoAdmin none
      = .ok (([⟨1, 1, 2, ⟨9, 0⟩, ⟨17, 0⟩, true⟩,
               (⟨2, 2, 3, ⟨8, 0⟩, ⟨12, 0⟩, true⟩ : Schedule)]).map
          (enrich
            ⟨[⟨1, "A", none, "draft", 1, some 5, none, none⟩,
              ⟨2, "B", none, "draft", 1, none, none, none⟩],
             [⟨1, 1, 2, ⟨9, 0⟩, ⟨17, 0⟩, true⟩, ⟨2, 2, 3, ⟨8, 0⟩, ⟨12, 0⟩, true⟩], 3, 3⟩))
          demoAdmin.is_admin) :=
  ⟨(c3_role_visibility
      ⟨[⟨1, "A", none, "draft", 1, some 5, none, none⟩,
        ⟨2, "B", none, "draft", 1, none, none, none⟩],
       [⟨1, 1, 2, ⟨9, 0⟩, ⟨17, 0⟩, true⟩, ⟨2, 2, 3, ⟨8, 0⟩, ⟨12, 0⟩, true⟩], 3, 3⟩
      demoClient).1 rfl |>.1,
   (c3_role_visibility
      ⟨[⟨1, "A", none, "draft", 1, some 5, none, none⟩,
        ⟨2, "B", none, "draft", 1, none, none, none⟩],
       [⟨1, 1, 2, ⟨9, 0⟩, ⟨17, 0⟩, true⟩, ⟨2, 2, 3, ⟨8, 0⟩, ⟨12, 0⟩, true⟩], 3, 3⟩
      demoAdmin).2 (Or.inl rfl) |>.1⟩

/-- C5: on the standalone POST path a `day_of_week` that does not parse as an
integer (campaign present, times valid) is NOT answered with the specific
400 InvalidDayOfWeek message: `int(data['day_of_week'])` sits outside the
inner `try/except ValueError`, so the `ValueError` reaches the outer handler
and the caller gets the generic 500. -/
theorem c5_nonint_day_generic_500 :
    create_schedule demoState ⟨some 1, some (.jstr "abc"), some "09:00", some "17:00", none⟩
      = (.err 500 "Failed to create schedule", demoState) := by
  rfl

/-- C7: a standalone POST with a missing required field is answered 400 with
the missing-field message, one referencing an unknown campaign is answered
404 Campaign not found; both leave the store untouched (fatal to this request
alone); a fully valid request appends exactly the one new schedule and is
answered 201 with its dictionary. -/
theorem c7_standalone_lifecycle (st : AppState) (req : ScheduleReq) :
    ((req.campaign_id = none ∨ req.day_of_week = none ∨ req.start_time = none
        ∨ req.end_time = none) →
      create_schedule st req
        = (.err 400 "Campaign ID, day of week, start time and end time are required", st))
    ∧ (∀ cid, req.campaign_id = some cid → req.day_of_week.isSome = true →
        req.start_time.isSome = true → req.end_time.isSome = true →
        st.campaigns.find? (fun c => c.id == cid) = none →
        create_schedule st req = (.err 404 "Campaign not found", st))
    ∧ (∀ cid dow sts ets c t1 t2 d,
        req.campaign_id = some cid → req.day_of_week = some dow →
        req.start_time = some sts → req.end_time = some ets →
        st.campaigns.find? (fun x => x.id == cid) = some c →
        parseTimeHM sts = some t1 → parseTimeHM ets = some t2 →
        pyIntOf dow = some d → 0 ≤ d → d ≤ 6 →
        create_schedule st req
          = (.ok 201 (to_dict ⟨st.nextScheduleId, cid, d, t1, t2, req.is_active.getD true⟩),
             { st with
                schedules := st.schedules ++ [⟨st.nextScheduleId, cid, d, t1, t2,
                  req.is_active.getD true⟩]
                nextScheduleId := st.nextScheduleId + 1 })) := by
  obtain ⟨cf, df, sf, ef, af⟩ := req
  refine ⟨?_, ?_, ?_⟩
  · intro h
    cases cf <;> cases df <;> cases sf <;> cases ef <;>
      first
        | rfl
        | (rcases h with h | h | h | h <;> exact Option.noConfusion h)
  · rintro cid h hd hs he hfind
    obtain ⟨dow, hdow⟩ := Option.isSome_iff_exists.mp hd
    obtain ⟨sts, hsts⟩ := Option.isSome_iff_exists.mp hs
    obtain ⟨ets, hets⟩ := Option.isSome_iff_exists.mp he
    subst h hdow hsts hets
    simp [create_schedule, hfind]
  · rintro cid dow sts ets c t1 t2 d h1 h2 h3 h4 hfind hp1 hp2 hpi hd0 hd6
    subst h1 h2 h3 h4
    simp [create_schedule, hfind, hp1, hp2, hpi, hd0, hd6]

/-- Witness for C7: the three outcomes at concrete requests against the demo
store. -/
theorem c7_standalone_lifecycle_witness :
    create_schedule demoState ⟨none, some (.jint 2), some "09:00", some "17:00", none⟩
        = (.err 400 "Campaign ID, day of week, start time and end time are required", demoState)
    ∧ create_schedule demoState ⟨some 9, some (.jint 2), some "09:00", some "17:00", none⟩
        = (.err 404 "Campaign not found", demoState)
    ∧ create_schedule demoState demoReq
        = (.ok 201 (to_dict ⟨1, 1, 2, ⟨9, 0⟩, ⟨17, 0⟩, true⟩),
           { demoState with
              schedules := demoState.schedules ++ [⟨1, 1, 2, ⟨9, 0⟩, ⟨17, 0⟩, true⟩]
              nextScheduleId := 2 }) :=
  ⟨(c7_standalone_lifecycle demoState ⟨none, some (.jint 2), some "09:00", some "17:00", none⟩).1
      (Or.inl rfl),
   (c7_standalone_lifecycle demoState ⟨some 9, some (.jint 2), some "09:00", some "17:00", none⟩).2.1
      9 rfl rfl rfl rfl rfl,
   (c7_standalone_lifecycle demoState demoReq).2.2 1 (.jint 2) "09:00" "17:00"
      ⟨1, "Spring Launch", none, "draft", 1, none, none, none⟩ ⟨9, 0⟩ ⟨17, 0⟩ 2
      rfl rfl rfl rfl rfl rfl rfl rfl (by decide) (by decide)⟩

/-- C8: no ordering constraint between start and end time — with both times
well-formed and the end at or before the start, the standalone path still
answers 201 and the batch path still accepts the item. -/
theorem c8_no_time_order_check (st : AppState) (cid : Nat) (d : Int)
    (s1 s2 : String) (t1 t2 : PyTime) (act : Option Bool) (c : Campaign)
    (hc : st.campaigns.find? (fun x => x.id == cid) = some c)
    (h1 : parseTimeHM s1 = some t1) (h2 : parseTimeHM s2 = some t2)
    (hd0 : 0 ≤ d) (hd6 : d ≤ 6) (_hord : timeLE t2 t1 = true) :
    (∃ st', create_schedule st ⟨some cid, some (.jint d), some s1, some s2, act⟩
        = (.ok 201 (to_dict ⟨st.nextScheduleId, cid, d, t1, t2, act.getD true⟩), st'))
    ∧ validateItem ⟨some s1, some s2, some (.jint d), act⟩ = some (t1, t2, d, act.getD true) := by
  constructor
  · refine ⟨{ st with
        schedules := st.schedules ++ [⟨st.nextScheduleId, cid, d, t1, t2, act.getD true⟩]
        nextScheduleId := st.nextScheduleId + 1 }, ?_⟩
    simp [create_schedule, hc, h1, h2, pyIntOf, hd0, hd6]
  · simp [validateItem, h1, h2, pyIntOf, hd0, hd6]

/-- Witness for C8: end 09:00 at or before start 17:00 is accepted on both
paths. -/
theorem c8_no_time_order_check_witness :
    (∃ st', create_schedule demoState ⟨some 1, some (.jint 2), some "17:00", some "09:00", none⟩
        = (.ok 201 (to_dict ⟨1, 1, 2, ⟨17, 0⟩, ⟨9, 0⟩, true⟩), st'))
    ∧ validateItem ⟨some "17:00", some "09:00", some (.jint 2), none⟩
        = some (⟨17, 0⟩, ⟨9, 0⟩, 2, true) :=
  c8_no_time_order_check demoState 1 2 "17:00" "09:00" ⟨17, 0⟩ ⟨9, 0⟩ none
    ⟨1, "Spring Launch", none, "draft", 1, none, none, none⟩ rfl rfl rfl
    (by decide) (by decide) (by decide)

/-- Counterexample to C4: the string 9:05 is not strict `HH:MM`, yet the
source's time parsing accepts it (Python `%H`/`%M` match one-digit fields), so
not every non-`HH:MM` string is rejected with `InvalidTimeFormat`. -/
theorem c4_counterexample :
    specStrictHHMM "9:05" = false ∧ parseTimeHM "9:05" = some ⟨9, 5⟩ := by
  exact ⟨rfl, rfl⟩

/-- C4 (amended): every strict `HH:MM` string with in-range fields parses; a
string the (looser, `H:M`-tolerant) parser rejects makes the standalone POST
answer 400 with the `InvalidTimeFormat` message and makes the batch path skip
the item — but acceptance extends beyond strict `HH:MM` to one-digit hour or
minute fields. -/
theorem c4_time_parsing (s : String) :
    (specStrictHHMM s = true → (parseTimeHM s).isSome = true)
    ∧ (parseTimeHM s = none →
        (∀ st cid dow ets act c, st.campaigns.find? (fun x => x.id == cid) = some c →
          create_schedule st ⟨some cid, some dow, some s, some ets, act⟩
            = (.err 400 "Invalid time format. Use HH:MM.", st))
        ∧ (∀ it : RawScheduleItem, it.start_time = some s → validateItem it = none)) := by
  refine ⟨specStrictHHMM_parses s, ?_⟩
  intro hn
  constructor
  · intro st cid dow ets act c hfind
    simp [create_schedule, hfind, hn]
  · intro it hit
    obtain ⟨i1, i2, i3, i4⟩ := it
    cases hit
    simp [validateItem, hn]

/-- Witness for C4: 09:30 parses; 9am is rejected with the InvalidTimeFormat
message on the standalone path and skipped on the batch path. -/
theorem c4_time_parsing_witness :
    (parseTimeHM "09:30").isSome = true
    ∧ (create_schedule demoState ⟨some 1, some (.jint 2), some "9am", some "17:00", none⟩
        = (.err 400 "Invalid time format. Use HH:MM.", demoState)
      ∧ validateItem ⟨some "9am", some "17:00", some (.jint 2), none⟩ = none) :=
  ⟨(c4_time_parsing "09:30").1 (by decide),
   ⟨((c4_time_parsing "9am").2 (by decide)).1 demoState 1 (.jint 2) "17:00" none
      ⟨1, "Spring Launch", none, "draft", 1, none, none, none⟩ rfl,
    ((c4_time_parsing "9am").2 (by decide)).2 ⟨some "9am", some "17:00", some (.jint 2), none⟩ rfl⟩⟩

/-- Counterexample to C6: 2024-1-3 is not valid `YYYY-MM-DD` (one-digit month
and day), yet the request succeeds instead of yielding a client error —
Python's `%m`/`%d` accept one-digit fields. -/
theorem c6_counterexample :
    specStrictYMD "2024-1-3" = false
    ∧ parseDateYMD "2024-1-3" = some ⟨2024, 1, 3⟩
    ∧ get_schedules demoState demoAdmin (some "2024-1-3") = .ok [] true :=
  ⟨rfl, rfl, rfl⟩

/-- C6 (amended): every strict calendar-valid `YYYY-MM-DD` date parameter
parses (the parser additionally tolerates one-digit month/day); an empty
`date` parameter is falsy under the source's `if date_str:` guard and is
answered 200 with the unfiltered set, exactly like an absent parameter; a
non-empty parameter the parser rejects is answered 400; a parameter it accepts
restricts the result to exactly the schedules whose `day_of_week` equals the
date's weekday (Monday = 0); and the owning campaigns'
`start_date`/`end_date` ranges never change which schedules are returned. -/
theorem c6_date_filter (st : AppState) (u : User) :
    (∀ s, specStrictYMD s = true → (parseDateYMD s).isSome = true)
    ∧ get_schedules st u (some "")
        = .ok ((roleFilter st u st.schedules).map (enrich st)) u.is_admin
    ∧ (∀ ds, ds ≠ "" → parseDateYMD ds = none →
        get_schedules st u (some ds) = .err 400 "Invalid date format. Use YYYY-MM-DD.")
    ∧ (∀ ds dt, parseDateYMD ds = some dt →
        get_schedules st u (some ds)
          = .ok ((roleFilter st u (st.schedules.filter
              (fun s => s.dayOfWeek == (pyWeekday dt : Int)))).map (enrich st)) u.is_admin)
    ∧ (∀ dso f, resultBases (get_schedules (setCampaignDates f st) u dso)
        = resultBases (get_schedules st u dso)) := by
  have hrf : ∀ f q, roleFilter (setCampaignDates f st) u q = roleFilter st u q := by
    intro f q
    unfold roleFilter
    have hco : clientOwns (setCampaignDates f st) u = clientOwns st u :=
      funext (fun s => clientOwns_setDates f st u s)
    rw [hco]
  refine ⟨fun s => specStrictYMD_parses s, rfl, ?_, ?_, ?_⟩
  · intro ds hne h
    simp [get_schedules, hne, h]
  · intro ds dt h
    have hne := parseDateYMD_ne_empty ds dt h
    simp [get_schedules, hne, h]
  · intro dso f
    cases dso with
    | none =>
      simp only [get_schedules, resultBases, List.map_map]
      have hsch : (setCampaignDates f st).schedules = st.schedules := rfl
      rw [hsch, hrf]
      rfl
    | some ds =>
      by_cases hds : ds = ""
      · subst hds
        have h1 : get_schedules (setCampaignDates f st) u (some "")
            = .ok ((roleFilter (setCampaignDates f st) u st.schedules).map
                (enrich (setCampaignDates f st))) u.is_admin := rfl
        have h2 : get_schedules st u (some "")
            = .ok ((roleFilter st u st.schedules).map (enrich st)) u.is_admin := rfl
        rw [h1, h2, hrf]
        simp only [resultBases, List.map_map]
        rfl
      · cases hp : parseDateYMD ds with
        | none => simp [get_schedules, hds, hp, resultBases]
        | some dt =>
          simp only [get_schedules, hp, resultBases, List.map_map, if_neg hds]
          have hsch : (setCampaignDates f st).schedules = st.schedules := rfl
          rw [hsch, hrf]
          rfl

/-- Witness for C6: a valid date parses; an empty `date` parameter is
answered 200 unfiltered; 2024-13-99 is answered 400; the 2024-01-03 query
filters on that Wednesday; pushing campaign dates to 2030 changes nothing. -/
theorem c6_date_filter_witness :
    (parseDateYMD "2024-01-03").isSome = true
    ∧ get_schedules demoState demoAdmin (some "")
        = .ok ((roleFilter demoState demoAdmin demoState.schedules).map (enrich demoState))
          demoAdmin.is_admin
    ∧ get_schedules demoState demoAdmin (some "2024-13-99")
        = .err 400 "Invalid date format. Use YYYY-MM-DD."
    ∧ get_schedules demoState demoAdmin (some "2024-01-03")
        = .ok ((roleFilter demoState demoAdmin (demoState.schedules.filter
            (fun s => s.dayOfWeek == (pyWeekday ⟨2024, 1, 3⟩ : Int)))).map (enrich demoState))
          demoAdmin.is_admin
    ∧ resultBases (get_schedules
          (setCampaignDates (fun _ => (some "2030-01-01", some "2030-12-31")) demoState)
          demoAdmin (some "2024-01-03"))
        = resultBases (get_schedules demoState demoAdmin (some "2024-01-03")) :=
  ⟨(c6_date_filter demoState demoAdmin).1 "2024-01-03" (by decide),
   (c6_date_filter demoState demoAdmin).2.1,
   (c6_date_filter demoState demoAdmin).2.2.1 "2024-13-99" (by decide) (by decide),
   (c6_date_filter demoState demoAdmin).2.2.2.1 "2024-01-03" ⟨2024, 1, 3⟩ (by decide),
   (c6_date_filter demoState demoAdmin).2.2.2.2 (some "2024-01-03")
      (fun _ => (some "2030-01-01", some "2030-12-31"))⟩

/-- Inversion of a successful standalone creation: the status is 201, and the
store gained exactly one schedule, with in-range day and the returned
dictionary derived from it. -/
theorem create_schedule_ok_inv (st st' : AppState) (req : ScheduleReq)
    (code : Nat) (dict : ScheduleDict)
    (h : create_schedule st req = (.ok code dict, st')) :
    code = 201 ∧ ∃ sched : Schedule,
      dict = to_dict sched ∧ st'.schedules = st.schedules ++ [sched]
      ∧ 0 ≤ sched.dayOfWeek ∧ sched.dayOfWeek ≤ 6
      ∧ dict.day_of_week = sched.dayOfWeek := by
  obtain ⟨cf, df, sf, ef, af⟩ := req
  cases cf <;> cases df <;> cases sf <;> cases ef <;>
      simp only [create_schedule] at h <;>
    try (injection h with h1 h2; exact CreateResult.noConfusion h1)
  split at h
  · injection h with h1 h2
    exact CreateResult.noConfusion h1
  · split at h
    · split at h
      · injection h with h1 h2
        exact CreateResult.noConfusion h1
      · rename_i d hd
        split at h
        · injection h with h1 h2
          obtain ⟨hcode, hdict⟩ := CreateResult.ok.inj h1
          rename_i hrange
          refine ⟨hcode.symm, ⟨_, hdict.symm, ?_, hrange.1, hrange.2, ?_⟩⟩
          · rw [← h2]
          · rw [← hdict]
            exact rfl
        · injection h with h1 h2
          exact CreateResult.noConfusion h1
    · injection h with h1 h2
      exact CreateResult.noConfusion h1

/-- C9: round trip — a schedule created through the standalone POST is
returned by a GET whose date falls on the schedule's weekday, and the entry's
`day_name` is the table-derived name for its `day_of_week`. -/
theorem c9_round_trip (st st' : AppState) (req : ScheduleReq) (code : Nat)
    (dict : ScheduleDict)
    (hcr : create_schedule st req = (.ok code dict, st'))
    (u : User) (hrole : u.role = "admin")
    (ds : String) (dt : Date) (hds : parseDateYMD ds = some dt)
    (hwd : (pyWeekday dt : Int) = dict.day_of_week) :
    ∃ entries, get_schedules st' u (some ds) = .ok entries u.is_admin
      ∧ ∃ e ∈ entries, e.base = dict
        ∧ e.base.day_name = dayNames.getD dict.day_of_week.toNat "" := by
  obtain ⟨-, sched, hdict, hsch, hge, hle, hdow⟩ :=
    create_schedule_ok_inv st st' req code dict hcr
  have hb : (u.role == "client") = false := by simp [hrole]
  refine ⟨(st'.schedules.filter
      (fun s => s.dayOfWeek == (pyWeekday dt : Int))).map (enrich st'), ?_, ?_⟩
  · have hne := parseDateYMD_ne_empty ds dt hds
    simp [get_schedules, hds, roleFilter, hb, hne]
  · have hdw : sched.dayOfWeek = (pyWeekday dt : Int) := by rw [← hdow, ← hwd]
    refine ⟨enrich st' sched, ?_, ?_, ?_⟩
    · apply List.mem_map_of_mem
      rw [List.mem_filter]
      refine ⟨?_, by simp [hdw]⟩
      rw [hsch]
      exact List.mem_append_right _ (List.mem_singleton_self _)
    · exact hdict.symm
    · show (to_dict sched).day_name = dayNames.getD dict.day_of_week.toNat ""
      rw [hdow]
      show dayName sched.dayOfWeek = dayNames.getD sched.dayOfWeek.toNat ""
      unfold dayName
      rw [if_pos ⟨hge, hle⟩]

/-- Witness for C9: create the Wednesday 09:00-17:00 schedule, query
2024-01-03 (a Wednesday), get it back named Wednesday. -/
theorem c9_round_trip_witness :
    ∃ entries,
      get_schedules (create_schedule demoState demoReq).2 demoAdmin (some "2024-01-03")
        = .ok entries demoAdmin.is_admin
      ∧ ∃ e ∈ entries, e.base = demoDict
        ∧ e.base.day_name = dayNames.getD demoDict.day_of_week.toNat "" :=
  c9_round_trip demoState (create_schedule demoState demoReq).2 demoReq 201 demoDict
    rfl demoAdmin rfl "2024-01-03" ⟨2024, 1, 3⟩ rfl (by decide)
